import Mathlib

/-!
Shallow embedding of `src/server.js` (an HTTP-to-WhatsApp gateway) and proofs
about its phone-number normalizer, connection-state tracker, and the
`/send-message` and `/qr` HTTP handlers.

Conventions of the embedding:
- JavaScript strings are Lean `String`s; the normalizer's core works on
  `List Char` (a JS string viewed as its characters).
- A JS value that may be absent (`req.body.phoneNumber`) is `Option String`;
  JS truthiness on such a value (`!x`) is the `truthy` function below
  (absent and the empty string are both falsy).
- A JS function that may `throw` is modelled as `Except String α`, carrying
  the thrown `Error`'s message.
- The external WhatsApp client's suspending operations
  (`isRegisteredUser`, `sendMessage`) are an oracle (`ClientBehavior`);
  the handler records which external operations it invoked, in order, as a
  trace of `HandlerAction`s.
-/

deriving instance DecidableEq for Except

namespace NotificationBot

/-- JS truthiness of a possibly-absent string field: `undefined` and `""`
are falsy, every non-empty string is truthy. -/
def truthy : Option String → Bool
  | none => false
  | some s => !s.isEmpty

/-! ### Phone number normalizer (`formatPhoneNumber`, server.js lines 86-119) -/

/-- Error message thrown when the cleaned digits start with "250" but are not
12 digits long (server.js line 94). -/
def err250 : String :=
  "Invalid Rwandan phone number. Should be 12 digits with country code (250)"

/-- Error message thrown when the cleaned digits start with "0" but are not
10 digits long (server.js line 102). -/
def err0 : String :=
  "Invalid Rwandan phone number. Local format should be 10 digits starting with 0"

/-- Error message thrown by the final else branch (server.js line 115). -/
def errElse : String :=
  "Invalid Rwandan phone number format. Use: 250788123456, 0788123456, or 788123456"

/-- The addressing suffix `"@c.us"` appended to every successful result. -/
def suffixCUs : List Char := ['@', 'c', '.', 'u', 's']

/-- Core of `formatPhoneNumber` on the character list of the input string.
`phoneNumber.replace(/\D/g, "")` is `List.filter Char.isDigit`;
`cleaned.startsWith(p)` is `p.isPrefixOf cleaned`;
`cleaned.substring(1)` is `cleaned.drop 1`; `throw new Error(m)` is
`.error m`. -/
def formatPhoneList (l : List Char) : Except String (List Char) :=
  let cleaned := l.filter Char.isDigit
  if ['2', '5', '0'].isPrefixOf cleaned then
    if cleaned.length ≠ 12 then .error err250
    else .ok (cleaned ++ suffixCUs)
  else if ['0'].isPrefixOf cleaned then
    if cleaned.length ≠ 10 then .error err0
    else .ok (['2', '5', '0'] ++ cleaned.drop 1 ++ suffixCUs)
  else if cleaned.length = 9 then
    .ok (['2', '5', '0'] ++ cleaned ++ suffixCUs)
  else .error errElse

/-- `formatPhoneNumber` on Lean strings: the JS function either returns a
string or throws an `Error` with one of the three messages above. -/
def formatPhoneNumber (s : String) : Except String String :=
  (formatPhoneList s.toList).map fun l => String.mk l

/-! ### Connection state tracker (server.js lines 39-80) -/

/-- The two module-level mutable variables: `isReady` (line 40) and
`qrCodeData` (line 41). -/
structure ConnState where
  ready : Bool
  qrPayload : Option String
  deriving Repr, DecidableEq

/-- Initial values: `isReady = false`, `qrCodeData = null`. -/
def initialState : ConnState := { ready := false, qrPayload := none }

/-- The lifecycle events the server registers handlers for
(`client.on(...)`, server.js lines 43-80). -/
inductive WEvent where
  | qr (payload : String)
  | loadingScreen (percent : Nat) (message : String)
  | ready
  | authenticated
  | authFailure (msg : String)
  | changeState (state : String)
  | disconnected (reason : String)
  deriving Repr, DecidableEq

/-- Observable side effect of an event handler beyond the state update:
the `disconnected` handler schedules `client.initialize()` via
`setTimeout(..., 5000)` (server.js lines 77-79). -/
inductive SideEffect where
  | scheduleReinit (delayMs : Nat)
  deriving Repr, DecidableEq

/-- One event handler step: the new state and the side effects performed.
Handlers that only log (`loading_screen`, `authenticated`, `change_state`)
leave the state unchanged. -/
def handleEvent (st : ConnState) : WEvent → ConnState × List SideEffect
  | .qr p => ({ st with qrPayload := some p }, [])
  | .loadingScreen _ _ => (st, [])
  | .ready => ({ ready := true, qrPayload := none }, [])
  | .authenticated => (st, [])
  | .authFailure _ => ({ st with ready := false }, [])
  | .changeState _ => (st, [])
  | .disconnected _ => ({ st with ready := false }, [.scheduleReinit 5000])

/-- Run a sequence of lifecycle events from a state. -/
def runEvents (st : ConnState) : List WEvent → ConnState
  | [] => st
  | e :: es => runEvents (handleEvent st e).1 es

/-- Whether an event is a QR-issued event. -/
def WEvent.isQr : WEvent → Bool
  | .qr _ => true
  | _ => false

/-- `qrGuardedRun st es` holds when, replaying `es` from `st`, every
QR-issued event is delivered while `ready` is false (the discipline the
external client actually follows: it only emits QR codes while
unauthenticated). -/
def qrGuardedRun : ConnState → List WEvent → Bool
  | _, [] => true
  | st, e :: es =>
    (!e.isQr || !st.ready) && qrGuardedRun (handleEvent st e).1 es

/-! ### HTTP gateway: `/qr` and `/send-message` handlers -/

/-- Response of `GET /qr` (server.js lines 135-150): a status code, the
optional `qrCode` JSON field, and the `message` JSON field. -/
structure QrResponse where
  status : Nat
  qrCode : Option String
  message : String
  deriving Repr, DecidableEq

/-- The `GET /qr` handler. `if (qrCodeData)` is JS truthiness, so a stored
empty string behaves like `null`. Every branch answers via `res.json`,
i.e. status 200. -/
def qrHandler (st : ConnState) : QrResponse :=
  if truthy st.qrPayload then
    { status := 200, qrCode := st.qrPayload
      message := "Please scan this QR code with your WhatsApp mobile app" }
  else if st.ready then
    { status := 200, qrCode := none
      message := "Bot is already authenticated and ready" }
  else
    { status := 200, qrCode := none
      message := "QR code not available yet. Please wait..." }

/-- JSON response of `POST /send-message`: HTTP status plus the fields the
handler can emit (`success`, `error`, `messageId`, echoed `to` and
`message`; the impure `timestamp` is not modelled). -/
structure JsonResponse where
  status : Nat
  success : Bool
  error : Option String
  messageId : Option String
  toNumber : Option String
  echoedMessage : Option String
  deriving Repr, DecidableEq

/-- An error response `res.status(st).json(\x7bsuccess:false, error:e\x7d)`. -/
def errResp (st : Nat) (e : String) : JsonResponse :=
  { status := st, success := false, error := some e
    messageId := none, toNumber := none, echoedMessage := none }

/-- Oracle for the external client's suspending operations:
`isRegisteredUser` and `sendMessage` each either return a value or throw
(carrying the `Error` message). `send` returns the sent message's id. -/
structure ClientBehavior where
  registered : String → Except String Bool
  send : String → String → Except String String

/-- The operations `/send-message` performs, in order, while handling one
request: invoking the normalizer, `client.isRegisteredUser(addr)`, and
`client.sendMessage(addr, text)`. -/
inductive HandlerAction where
  | normalizeCall (input : String)
  | isRegisteredUserCall (addr : String)
  | sendMessageCall (addr : String) (text : String)
  deriving Repr, DecidableEq

/-- Whether an action is a `sendMessage` invocation. -/
def HandlerAction.isSend : HandlerAction → Bool
  | .sendMessageCall _ _ => true
  | _ => false

/-- The `POST /send-message` handler (server.js lines 153-201), as a function
of the current `isReady` flag, the two body fields, and the external
client's behavior. Returns the HTTP response and the trace of operations
invoked. A `throw` anywhere inside the `try` (the normalizer, or either
client call) is caught by the handler's `catch`, which answers 500 with
`"Failed to send message: " ++ error.message`. -/
def sendMessageHandler (ready : Bool) (phoneNumber message : Option String)
    (cb : ClientBehavior) : JsonResponse × List HandlerAction :=
  if !ready then
    (errResp 503 "WhatsApp client is not ready. Please check /status endpoint.", [])
  else if !truthy phoneNumber || !truthy message then
    (errResp 400 "Phone number and message are required", [])
  else
    let pn := phoneNumber.getD ""
    let msg := message.getD ""
    match formatPhoneNumber pn with
    | .error e =>
      (errResp 500 ("Failed to send message: " ++ e), [.normalizeCall pn])
    | .ok addr =>
      match cb.registered addr with
      | .error e =>
        (errResp 500 ("Failed to send message: " ++ e),
         [.normalizeCall pn, .isRegisteredUserCall addr])
      | .ok false =>
        (errResp 400 "Phone number is not registered on WhatsApp",
         [.normalizeCall pn, .isRegisteredUserCall addr])
      | .ok true =>
        match cb.send addr msg with
        | .error e =>
          (errResp 500 ("Failed to send message: " ++ e),
           [.normalizeCall pn, .isRegisteredUserCall addr,
            .sendMessageCall addr msg])
        | .ok mid =>
          ({ status := 200, success := true, error := none
             messageId := some mid, toNumber := some pn, echoedMessage := some msg },
           [.normalizeCall pn, .isRegisteredUserCall addr,
            .sendMessageCall addr msg])

/-- A concrete benign client behavior used for witnesses: every address is
registered, every send succeeds with id "MSGID". -/
def cbUnit : ClientBehavior :=
  { registered := fun _ => .ok true, send := fun _ _ => .ok "MSGID" }

/-! ## Helper lemmas about the normalizer -/

/-- Branch behavior when the cleaned digits start with "250". -/
lemma formatPhoneList_of_pre250 (l : List Char)
    (h : ['2', '5', '0'].isPrefixOf (l.filter Char.isDigit) = true) :
    formatPhoneList l =
      if (l.filter Char.isDigit).length = 12 then
        .ok (l.filter Char.isDigit ++ suffixCUs)
      else .error err250 := by
  simp only [formatPhoneList, h, if_true, ite_not]

/-- Branch behavior when the cleaned digits start with "0" but not "250". -/
lemma formatPhoneList_of_pre0 (l : List Char)
    (h250 : ['2', '5', '0'].isPrefixOf (l.filter Char.isDigit) = false)
    (h0 : ['0'].isPrefixOf (l.filter Char.isDigit) = true) :
    formatPhoneList l =
      if (l.filter Char.isDigit).length = 10 then
        .ok (['2', '5', '0'] ++ (l.filter Char.isDigit).drop 1 ++ suffixCUs)
      else .error err0 := by
  simp only [formatPhoneList, h250, h0, Bool.false_eq_true, if_false, if_true, ite_not]

/-- Branch behavior when the cleaned digits start with neither "250" nor "0". -/
lemma formatPhoneList_of_other (l : List Char)
    (h250 : ['2', '5', '0'].isPrefixOf (l.filter Char.isDigit) = false)
    (h0 : ['0'].isPrefixOf (l.filter Char.isDigit) = false) :
    formatPhoneList l =
      if (l.filter Char.isDigit).length = 9 then
        .ok (['2', '5', '0'] ++ l.filter Char.isDigit ++ suffixCUs)
      else .error errElse := by
  simp only [formatPhoneList, h250, h0, Bool.false_eq_true, if_false]

/-! ## Claims -/

/-- Claim C2: the normalizer first strips every non-digit character and then
classifies the remaining digits: digits starting "250" succeed with
digits + "@c.us" exactly when there are 12 of them and otherwise fail;
digits starting "0" succeed with "250" + (digits minus the leading 0) +
"@c.us" exactly when there are 10 and otherwise fail; any other digits
succeed with "250" + digits + "@c.us" exactly when there are 9; every other
shape (including empty digits) fails. The function is total: it always
returns a value or one of the three typed failure messages. -/
theorem c2_normalizer_characterization (l : List Char) :
    (['2', '5', '0'].isPrefixOf (l.filter Char.isDigit) = true →
      (formatPhoneList l = .ok (l.filter Char.isDigit ++ suffixCUs) ↔
        (l.filter Char.isDigit).length = 12) ∧
      ((l.filter Char.isDigit).length ≠ 12 → formatPhoneList l = .error err250)) ∧
    (['2', '5', '0'].isPrefixOf (l.filter Char.isDigit) = false →
     ['0'].isPrefixOf (l.filter Char.isDigit) = true →
      (formatPhoneList l =
          .ok (['2', '5', '0'] ++ (l.filter Char.isDigit).drop 1 ++ suffixCUs) ↔
        (l.filter Char.isDigit).length = 10) ∧
      ((l.filter Char.isDigit).length ≠ 10 → formatPhoneList l = .error err0)) ∧
    (['2', '5', '0'].isPrefixOf (l.filter Char.isDigit) = false →
     ['0'].isPrefixOf (l.filter Char.isDigit) = false →
      (formatPhoneList l = .ok (['2', '5', '0'] ++ l.filter Char.isDigit ++ suffixCUs) ↔
        (l.filter Char.isDigit).length = 9) ∧
      ((l.filter Char.isDigit).length ≠ 9 → formatPhoneList l = .error errElse)) ∧
    ((∃ r, formatPhoneList l = .ok r) ∨ formatPhoneList l = .error err250 ∨
      formatPhoneList l = .error err0 ∨ formatPhoneList l = .error errElse) := by
  refine ⟨fun h250 => ?_, fun h250 h0 => ?_, fun h250 h0 => ?_, ?_⟩
  · rw [formatPhoneList_of_pre250 l h250]
    rcases eq_or_ne (l.filter Char.isDigit).length 12 with h12 | h12 <;>
      simp [h12]
  · rw [formatPhoneList_of_pre0 l h250 h0]
    rcases eq_or_ne (l.filter Char.isDigit).length 10 with h10 | h10 <;>
      simp [h10]
  · rw [formatPhoneList_of_other l h250 h0]
    rcases eq_or_ne (l.filter Char.isDigit).length 9 with h9 | h9 <;>
      simp [h9]
  · by_cases h250 : ['2', '5', '0'].isPrefixOf (l.filter Char.isDigit) = true
    · rw [formatPhoneList_of_pre250 l h250]
      rcases eq_or_ne (l.filter Char.isDigit).length 12 with h12 | h12 <;>
        simp [h12]
    · replace h250 : ['2', '5', '0'].isPrefixOf (l.filter Char.isDigit) = false := by
        simp only [Bool.not_eq_true] at h250; exact h250
      by_cases h0 : ['0'].isPrefixOf (l.filter Char.isDigit) = true
      · rw [formatPhoneList_of_pre0 l h250 h0]
        rcases eq_or_ne (l.filter Char.isDigit).length 10 with h10 | h10 <;>
          simp [h10]
      · replace h0 : ['0'].isPrefixOf (l.filter Char.isDigit) = false := by
          simp only [Bool.not_eq_true] at h0; exact h0
        rw [formatPhoneList_of_other l h250 h0]
        rcases eq_or_ne (l.filter Char.isDigit).length 9 with h9 | h9 <;>
          simp [h9]

/-- Witness for C2: the local number "0788123456" (hyphens allowed) falls in
the "0"-prefix branch and normalizes to "250788123456@c.us". -/
theorem c2_witness :
    ['2', '5', '0'].isPrefixOf ("0788-123-456".toList.filter Char.isDigit) = false ∧
    ['0'].isPrefixOf ("0788-123-456".toList.filter Char.isDigit) = true ∧
    ("0788-123-456".toList.filter Char.isDigit).length = 10 ∧
    formatPhoneList "0788-123-456".toList = .ok "250788123456@c.us".toList := by
  refine ⟨by decide, by decide, by decide, ?_⟩
  have h := ((c2_normalizer_characterization "0788-123-456".toList).2.1
    (by decide) (by decide)).1.mpr (by decide)
  exact h.trans (by decide)

/-- Claim C8: normalization is idempotent on canonical output. For every
12-digit string starting "250", normalizing succeeds with the digits +
"@c.us", and normalizing that result with its "@c.us" suffix removed yields
the same value again. -/
theorem c8_idempotent_on_canonical (d : List Char) (hd : ∀ c ∈ d, c.isDigit = true)
    (hlen : d.length = 12) (hpre : ['2', '5', '0'].isPrefixOf d = true) :
    formatPhoneList d = .ok (d ++ suffixCUs) ∧
    formatPhoneList ((d ++ suffixCUs).take ((d ++ suffixCUs).length - suffixCUs.length)) =
      .ok (d ++ suffixCUs) := by
  have hself : d.filter Char.isDigit = d := List.filter_eq_self.mpr hd
  have h1 : formatPhoneList d = .ok (d ++ suffixCUs) := by
    rw [formatPhoneList_of_pre250 d (by rwa [hself])]
    rw [hself, if_pos hlen]
  have htake : (d ++ suffixCUs).take ((d ++ suffixCUs).length - suffixCUs.length) = d := by
    simp [List.length_append]
  rw [htake]
  exact ⟨h1, h1⟩

/-- Witness for C8: the canonical number "250788123456". -/
theorem c8_witness :
    (∀ c ∈ "250788123456".toList, c.isDigit = true) ∧
    "250788123456".toList.length = 12 ∧
    ['2', '5', '0'].isPrefixOf "250788123456".toList = true ∧
    formatPhoneList "250788123456".toList = .ok ("250788123456".toList ++ suffixCUs) := by
  refine ⟨by decide, by decide, by decide, ?_⟩
  exact (c8_idempotent_on_canonical "250788123456".toList
    (by decide) (by decide) (by decide)).1

/-- Claim C3: each lifecycle event has exactly the stated effect on the
tracked state. A QR event with payload p sets qrPayload to p and leaves
ready unchanged; a ready event sets ready to true and clears qrPayload; an
authenticated event changes nothing; an auth-failure event sets ready to
false leaving qrPayload unchanged; a disconnected event sets ready to false
and schedules one client reinitialization with a 5000 ms delay. Only the
disconnected handler performs a side effect. -/
theorem c3_lifecycle_effects (st : ConnState) (p m r : String) :
    handleEvent st (.qr p) = ({ st with qrPayload := some p }, []) ∧
    handleEvent st .ready = ({ ready := true, qrPayload := none }, []) ∧
    handleEvent st .authenticated = (st, []) ∧
    handleEvent st (.authFailure m) = ({ st with ready := false }, []) ∧
    handleEvent st (.disconnected r) =
      ({ st with ready := false }, [.scheduleReinit 5000]) :=
  ⟨rfl, rfl, rfl, rfl, rfl⟩

/-- Claim C4, counterexample: replaying a ready event followed by a QR event
from the initial state reaches a state where qrPayload is set while ready is
true, contradicting the claim that a set qrPayload only occurs while not
ready. -/
theorem c4_counterexample :
    (runEvents initialState [WEvent.ready, WEvent.qr "QRDATA"]).qrPayload =
      some "QRDATA" ∧
    (runEvents initialState [WEvent.ready, WEvent.qr "QRDATA"]).ready = true :=
  ⟨rfl, rfl⟩

/-- The QR-pending invariant is preserved along any run in which QR events are
only delivered while not ready. -/
lemma qrGuarded_preserves_invariant (es : List WEvent) :
    ∀ st : ConnState, (st.qrPayload ≠ none → st.ready = false) →
      qrGuardedRun st es = true →
      ((runEvents st es).qrPayload ≠ none → (runEvents st es).ready = false) := by
  induction es with
  | nil => exact fun st hinv _ => hinv
  | cons e es ih =>
    intro st hinv hg
    rw [qrGuardedRun, Bool.and_eq_true] at hg
    rw [runEvents]
    refine ih (handleEvent st e).1 ?_ hg.2
    cases e with
    | qr p =>
      intro _
      have hnr : st.ready = false := by
        have h1 := hg.1
        simp only [WEvent.isQr, Bool.not_true, Bool.false_or, Bool.not_eq_true'] at h1
        exact h1
      simpa [handleEvent] using hnr
    | loadingScreen pc m => exact hinv
    | ready => intro h; simp [handleEvent] at h
    | authenticated => exact hinv
    | authFailure m => intro _; simp [handleEvent]
    | changeState s => exact hinv
    | disconnected r => intro _; simp [handleEvent]

/-- Claim C4 (amended): in every state reachable from the initial state by a
sequence of lifecycle events in which each QR-issued event is delivered
while ready is false, a set qrPayload implies ready is false. The unrestricted
claim fails (see the counterexample): a QR event arriving while ready leaves
ready true with qrPayload set. -/
theorem c4_amended_qr_pending_invariant (es : List WEvent)
    (hg : qrGuardedRun initialState es = true)
    (hq : (runEvents initialState es).qrPayload ≠ none) :
    (runEvents initialState es).ready = false :=
  qrGuarded_preserves_invariant es initialState (fun h => absurd rfl h) hg hq

/-- Witness for C4 (amended): a single QR event from the initial state. -/
theorem c4_witness :
    qrGuardedRun initialState [WEvent.qr "Q"] = true ∧
    (runEvents initialState [WEvent.qr "Q"]).qrPayload ≠ none ∧
    (runEvents initialState [WEvent.qr "Q"]).ready = false :=
  ⟨rfl, by decide, c4_amended_qr_pending_invariant [WEvent.qr "Q"] rfl (by decide)⟩

/-- Claim C5: while ready is false, POST /send-message answers 503 with the
explanatory error, regardless of the body's content, and invokes nothing. -/
theorem c5_not_ready_503 (phoneNumber message : Option String) (cb : ClientBehavior) :
    (sendMessageHandler false phoneNumber message cb).1 =
      errResp 503 "WhatsApp client is not ready. Please check /status endpoint." ∧
    (sendMessageHandler false phoneNumber message cb).2 = [] :=
  ⟨rfl, rfl⟩

/-- Claim C6: while ready is true, if phoneNumber or message is absent the
response is 400 with the missing-field error, and no operation is invoked:
in particular the normalizer is never reached on such a request (the trace
is empty). -/
theorem c6_missing_field_400 (phoneNumber message : Option String)
    (cb : ClientBehavior) (h : phoneNumber = none ∨ message = none) :
    (sendMessageHandler true phoneNumber message cb).1 =
      errResp 400 "Phone number and message are required" ∧
    (sendMessageHandler true phoneNumber message cb).2 = [] := by
  rcases h with rfl | rfl
  · exact ⟨rfl, rfl⟩
  · cases hp : truthy phoneNumber <;>
      simp [sendMessageHandler, hp, truthy]

/-- Witness for C6: a request with a phone number but no message. -/
theorem c6_witness :
    ((some "0788123456" : Option String) = none ∨ (none : Option String) = none) ∧
    (sendMessageHandler true (some "0788123456") none cbUnit).1 =
      errResp 400 "Phone number and message are required" ∧
    (sendMessageHandler true (some "0788123456") none cbUnit).2 = [] :=
  ⟨Or.inr rfl, c6_missing_field_400 (some "0788123456") none cbUnit (Or.inr rfl)⟩

/-- Claim C10: with ready true, an empty-string phoneNumber or message is
treated exactly like an absent field: the handler's whole behavior
(response and trace) is the same as with the field absent, the response is
the 400 missing-field error, and nothing is invoked (no normalization,
registration lookup, or send). -/
theorem c10_empty_field_is_missing (phoneNumber message : Option String)
    (cb : ClientBehavior) :
    sendMessageHandler true (some "") message cb =
      sendMessageHandler true none message cb ∧
    sendMessageHandler true phoneNumber (some "") cb =
      sendMessageHandler true phoneNumber none cb ∧
    (sendMessageHandler true (some "") message cb).1 =
      errResp 400 "Phone number and message are required" ∧
    (sendMessageHandler true phoneNumber (some "") cb).1 =
      errResp 400 "Phone number and message are required" ∧
    (sendMessageHandler true (some "") message cb).2 = [] ∧
    (sendMessageHandler true phoneNumber (some "") cb).2 = [] := by
  refine ⟨rfl, rfl, rfl, ?_, rfl, ?_⟩ <;>
    cases hp : truthy phoneNumber <;>
      simp [sendMessageHandler, hp, truthy, show "".isEmpty = true from rfl]

/-- Claim C1, counterexample: with ready true and both fields present, a
phone number whose normalization fails ("123" has three digits) yields
status 500 — not 400 — and the error field is the normalizer's message
prefixed with "Failed to send message: ", not the bare message. The
normalizer's throw is caught by the handler's catch-all, which maps every
thrown error to 500. -/
theorem c1_counterexample :
    formatPhoneNumber "123" = .error errElse ∧
    (sendMessageHandler true (some "123") (some "hi") cbUnit).1.status = 500 ∧
    (sendMessageHandler true (some "123") (some "hi") cbUnit).1.status ≠ 400 ∧
    (sendMessageHandler true (some "123") (some "hi") cbUnit).1.error =
      some ("Failed to send message: " ++ errElse) ∧
    (sendMessageHandler true (some "123") (some "hi") cbUnit).1.error ≠
      some errElse :=
  ⟨rfl, rfl, by decide, rfl, by decide⟩

/-- Claim C1 (amended): with ready true and both fields present (non-empty),
if normalization of the phone number fails with message e then the response
has status 500 and its error field is "Failed to send message: " ++ e; only
the normalizer was invoked. -/
theorem c1_amended_normalize_failure_500 (pn msg : String) (cb : ClientBehavior)
    (e : String) (hpn : truthy (some pn) = true) (hmsg : truthy (some msg) = true)
    (hfail : formatPhoneNumber pn = .error e) :
    (sendMessageHandler true (some pn) (some msg) cb).1 =
      errResp 500 ("Failed to send message: " ++ e) ∧
    (sendMessageHandler true (some pn) (some msg) cb).2 = [.normalizeCall pn] := by
  simp [sendMessageHandler, hpn, hmsg, hfail]

/-- Witness for C1 (amended): the three-digit input "123". -/
theorem c1_witness :
    truthy (some "123") = true ∧ truthy (some "hi") = true ∧
    formatPhoneNumber "123" = .error errElse ∧
    ((sendMessageHandler true (some "123") (some "hi") cbUnit).1 =
        errResp 500 ("Failed to send message: " ++ errElse) ∧
      (sendMessageHandler true (some "123") (some "hi") cbUnit).2 =
        [.normalizeCall "123"]) :=
  ⟨rfl, rfl, rfl, c1_amended_normalize_failure_500 "123" "hi" cbUnit errElse rfl rfl rfl⟩

/-- Claim C7, counterexample: the handler tests the stored payload with JS
truthiness, so a state whose qrPayload is set to the empty string — reachable
by a QR event carrying "" — answers with the not-available body instead of
the QR payload and scan instructions. -/
theorem c7_counterexample :
    runEvents initialState [WEvent.qr ""] =
      { ready := false, qrPayload := some "" } ∧
    ({ ready := false, qrPayload := some "" } : ConnState).qrPayload ≠ none ∧
    qrHandler { ready := false, qrPayload := some "" } =
      { status := 200, qrCode := none
        message := "QR code not available yet. Please wait..." } :=
  ⟨rfl, by decide, rfl⟩

/-- Claim C7 (amended): GET /qr always answers 200, and the body is chosen by
priority on the truthiness of qrPayload: if qrPayload holds a non-empty
string, the body carries the payload and the scan instructions regardless of
ready; otherwise (including a stored empty string) if ready is true the body
says already authenticated, else that the QR code is not available yet. -/
theorem c7_amended_qr_route (st : ConnState) :
    (qrHandler st).status = 200 ∧
    (truthy st.qrPayload = true →
      (qrHandler st).qrCode = st.qrPayload ∧
      (qrHandler st).message = "Please scan this QR code with your WhatsApp mobile app") ∧
    (truthy st.qrPayload = false → st.ready = true →
      (qrHandler st).qrCode = none ∧
      (qrHandler st).message = "Bot is already authenticated and ready") ∧
    (truthy st.qrPayload = false → st.ready = false →
      (qrHandler st).qrCode = none ∧
      (qrHandler st).message = "QR code not available yet. Please wait...") := by
  cases hq : truthy st.qrPayload <;> cases hr : st.ready <;>
    simp [qrHandler, hq, hr]

/-- Witness for C7 (amended): a pending non-empty QR payload while not ready. -/
theorem c7_witness :
    truthy (({ ready := false, qrPayload := some "QR" } : ConnState).qrPayload) = true ∧
    (qrHandler { ready := false, qrPayload := some "QR" }).status = 200 ∧
    (qrHandler { ready := false, qrPayload := some "QR" }).qrCode = some "QR" :=
  ⟨rfl, (c7_amended_qr_route { ready := false, qrPayload := some "QR" }).1,
    ((c7_amended_qr_route { ready := false, qrPayload := some "QR" }).2.1 rfl).1⟩

/-- Claim C9: while handling one POST /send-message request, sendMessage is
invoked at most once, and a sendMessage invocation implies that ready was
true, both fields were present (truthy), normalization of the raw
phoneNumber succeeded with the address the call received, and
isRegisteredUser answered true for that address; moreover the full trace is
exactly the normalizer call on the raw input followed by the registration
lookup and the send on the normalized address, in that order, with the
request's message text. -/
theorem c9_send_at_most_once_and_guarded (ready : Bool)
    (phoneNumber message : Option String) (cb : ClientBehavior) :
    ((sendMessageHandler ready phoneNumber message cb).2.filter
      HandlerAction.isSend).length ≤ 1 ∧
    (∀ addr text,
      HandlerAction.sendMessageCall addr text ∈
        (sendMessageHandler ready phoneNumber message cb).2 →
      ready = true ∧ truthy phoneNumber = true ∧ truthy message = true ∧
      formatPhoneNumber (phoneNumber.getD "") = .ok addr ∧
      cb.registered addr = .ok true ∧
      text = message.getD "" ∧
      (sendMessageHandler ready phoneNumber message cb).2 =
        [.normalizeCall (phoneNumber.getD ""), .isRegisteredUserCall addr,
         .sendMessageCall addr text]) := by
  cases ready with
  | false => simp [sendMessageHandler]
  | true =>
    cases hp : truthy phoneNumber with
    | false => simp [sendMessageHandler, hp]
    | true =>
      cases hm : truthy message with
      | false => simp [sendMessageHandler, hp, hm]
      | true =>
        rcases hfmt : formatPhoneNumber (phoneNumber.getD "") with e | addr
        · simp [sendMessageHandler, hp, hm, hfmt, HandlerAction.isSend]
        · rcases hreg : cb.registered addr with e | b
          · simp [sendMessageHandler, hp, hm, hfmt, hreg, HandlerAction.isSend]
          · cases b with
            | false => simp [sendMessageHandler, hp, hm, hfmt, hreg, HandlerAction.isSend]
            | true =>
              rcases hsend : cb.send addr (message.getD "") with e | mid <;>
                · constructor
                  · simp [sendMessageHandler, hp, hm, hfmt, hreg, hsend,
                      HandlerAction.isSend]
                  · intro addr' text' hmem
                    simp only [sendMessageHandler, hp, hm, hfmt, hreg, hsend] at hmem
                    simp at hmem
                    rcases hmem with ⟨rfl, rfl⟩
                    exact ⟨rfl, rfl, rfl, rfl, hreg, rfl, by
                      simp [sendMessageHandler, hp, hm, hfmt, hreg, hsend]⟩

/-- Witness for C9: a successful send of "hello" to the local number
"0788123456" under the benign client behavior. -/
theorem c9_witness :
    HandlerAction.sendMessageCall "250788123456@c.us" "hello" ∈
      (sendMessageHandler true (some "0788123456") (some "hello") cbUnit).2 ∧
    ((sendMessageHandler true (some "0788123456") (some "hello") cbUnit).2.filter
      HandlerAction.isSend).length ≤ 1 ∧
    cbUnit.registered "250788123456@c.us" = .ok true ∧
    formatPhoneNumber "0788123456" = .ok "250788123456@c.us" := by
  have h := c9_send_at_most_once_and_guarded true (some "0788123456") (some "hello") cbUnit
  have hmem : HandlerAction.sendMessageCall "250788123456@c.us" "hello" ∈
      (sendMessageHandler true (some "0788123456") (some "hello") cbUnit).2 := by
    decide
  have h2 := h.2 "250788123456@c.us" "hello" hmem
  exact ⟨hmem, h.1, h2.2.2.2.2.1, h2.2.2.2.1⟩

end NotificationBot
